import Mathlib

set_option maxRecDepth 8000

/-!
Shallow embedding of the Raydium CP-AMM integration client
(src/main.rs) and proofs about its specification claims.

The client is effectful: every operation performs RPC calls against a
remote node and may submit one signed transaction.  We model the remote
node and the external libraries (solana-sdk address derivation, the
anchor instruction builder, the raydium curve calculator) as an
environment of response functions, and each client operation as a
deterministic computation that returns both the list of performed
effects (the trace) and an `Except`-result, exactly mirroring the `?`
error propagation of the Rust source.
-/

namespace Raydium

/-- A public key is a 32-byte array; the derived Rust `Ord` on `[u8; 32]`
is lexicographic, which coincides with the numeric order of the 256-bit
big-endian integer the bytes spell.  We therefore model a key as an
integer below `2 ^ 256`. -/
abbrev Pubkey := Fin (2 ^ 256)

instance : NeZero ((2 : Nat) ^ 256) := ⟨by decide⟩

/-- A transaction signature returned by the RPC node on confirmation. -/
abbrev Signature := Nat

/-- A recent blockhash fetched from the RPC node. -/
abbrev Blockhash := Nat

/-- One seed of a program-derived address: the source passes fixed seed
strings, key bytes, and a `u16` big-endian index to
`Pubkey::find_program_address`. -/
inductive Seed
  | str (s : String)
  | key (k : Pubkey)
  | u16be (n : Nat)

deriving instance DecidableEq for Seed

/-- Seed string constant `POOL_SEED` from the external raydium_cp_swap crate. -/
def POOL_SEED : String := "pool"

/-- Seed string constant `AUTH_SEED` from the external raydium_cp_swap crate. -/
def AUTH_SEED : String := "vault_and_lp_mint_auth_seed"

/-- Seed string constant `POOL_VAULT_SEED` from the external raydium_cp_swap crate. -/
def POOL_VAULT_SEED : String := "pool_vault"

/-- Seed string constant `POOL_LP_MINT_SEED` from the external raydium_cp_swap crate. -/
def POOL_LP_MINT_SEED : String := "pool_lp_mint"

/-- Seed string constant `OBSERVATION_SEED` from the external raydium_cp_swap crate. -/
def OBSERVATION_SEED : String := "observation"

/-- Seed string constant `AMM_CONFIG_SEED` from the external raydium_cp_swap crate. -/
def AMM_CONFIG_SEED : String := "amm_config"

/-- External program id `spl_token::id()`; the concrete 32-byte value is
irrelevant to every claim, so the model fixes an arbitrary distinct key. -/
def spl_token_id : Pubkey := 101

/-- External program id `spl_token_2022::id()` (value abstracted). -/
def spl_token_2022_id : Pubkey := 102

/-- External program id `spl_memo::id()` (value abstracted). -/
def spl_memo_id : Pubkey := 103

/-- External program id `spl_associated_token_account::id()` (value abstracted). -/
def associated_token_program_id : Pubkey := 104

/-- External program id `system_program::id()` (value abstracted). -/
def system_program_id : Pubkey := 105

/-- External account id `sysvar::rent::id()` (value abstracted). -/
def rent_sysvar_id : Pubkey := 106

/-- External account id `raydium_cp_swap::create_pool_fee_reveiver::id()`
(value abstracted). -/
def create_pool_fee_receiver_id : Pubkey := 107

/-- The mint constant `TOKEN_A` of the source
("69iigTreHjCuinTmPvbaVdKtvwVwkWp5nd8ERNqg49ho"; value abstracted). -/
def tokenA : Pubkey := 108

/-- The mint constant `TOKEN_B` of the source
("2vEyg5rDJZmSjsTKKGKVtETu2DSGyKwcs8h3kycLyziU"; value abstracted). -/
def tokenB : Pubkey := 109

/-! ## IEEE-754 binary64 model

`calculate_token_amounts` applies the hardcoded slippage margin in `f64`
arithmetic.  Every value reachable there is a finite nonnegative normal
number (or zero), far below overflow, so we represent a binary64 value
exactly as a fraction `n / d` of naturals (`d ≠ 0`) and model each
operation as the exact operation followed by rounding to nearest with
ties to even at 53 significant bits. -/

/-- Number of binary digits of `n` (`0` for `n = 0`); valid for
`n < 2 ^ 256`, far above every numerator reachable in the program. -/
def natBits (n : Nat) : Nat :=
  (List.range 256).foldl (fun acc i => if 2 ^ i ≤ n then i + 1 else acc) 0

/-- Round the nonnegative fraction `n / d` (with `d ≠ 0`) to the nearest
integer, ties to even. -/
def rnePos (n d : Nat) : Nat :=
  let q := n / d
  let r := n % d
  if 2 * r < d then q
  else if d < 2 * r then q + 1
  else if q % 2 = 0 then q else q + 1

/-- Whether `n / d < 2 ^ e`, by cross multiplication with natural powers. -/
def ltPow2 (n d : Nat) (e : ℤ) : Bool :=
  if 0 ≤ e then decide (n < 2 ^ e.toNat * d) else decide (n * 2 ^ (-e).toNat < d)

/-- Binade exponent of the positive fraction `n / d`: the unique `e` with
`2 ^ e ≤ n / d < 2 ^ (e + 1)`, computed from the bit lengths of
numerator and denominator plus one correcting comparison. -/
def binadeND (n d : Nat) : ℤ :=
  let e0 : ℤ := (natBits n : ℤ) - (natBits d : ℤ)
  if ltPow2 n d e0 then e0 - 1 else e0

/-- Round the nonnegative fraction `n / d` (with `d ≠ 0`) to the nearest
binary64 value (round to nearest, ties to even, 53-bit significand),
returned as a fraction.  Valid on the normal finite range, which covers
every value this program produces. -/
def f64round (n d : Nat) : Nat × Nat :=
  if n = 0 then (0, 1)
  else
    let e : ℤ := binadeND n d
    let s : ℤ := 52 - e
    if 0 ≤ s then (rnePos (n * 2 ^ s.toNat) d, 2 ^ s.toNat)
    else (rnePos n (d * 2 ^ (-s).toNat) * 2 ^ (-s).toNat, 1)

/-- Binary64 multiplication: exact product, then rounding. -/
def f64mul (a b : Nat × Nat) : Nat × Nat := f64round (a.1 * b.1) (a.2 * b.2)

/-- The conversion `x as f64` of an unsigned integer: rounds to nearest
once the integer exceeds 53 bits. -/
def f64ofNat (x : Nat) : Nat × Nat := f64round x 1

/-- The binary64 value of the source literal `SLIPPAGE: f64 = 0.01`. -/
def slippage_f64 : Nat × Nat := f64round 1 100

/-- The binary64 value of `1.0 + SLIPPAGE` as computed by the source
(exact sum of the two binary64 values, then rounding). -/
def onePlusSlippage : Nat × Nat :=
  f64round (slippage_f64.2 + slippage_f64.1) slippage_f64.2

/-- The binary64 value of `1.0 - SLIPPAGE` as computed by the source. -/
def oneMinusSlippage : Nat × Nat :=
  f64round (slippage_f64.2 - slippage_f64.1) slippage_f64.2

/-- Binary64 `ceil` of a nonnegative value; the result of `f64::ceil` is
always exactly representable, so it is the exact integer ceiling. -/
def ceilND (a : Nat × Nat) : Nat := (a.1 + a.2 - 1) / a.2

/-- Binary64 `floor` of a nonnegative value; exact like `ceilND`. -/
def floorND (a : Nat × Nat) : Nat := a.1 / a.2

/-- The Rust saturating cast `as u64` of a nonnegative integral binary64
value: values at or above `2 ^ 64` clamp to `u64::MAX`. -/
def castU64 (c : Nat) : Nat := if 2 ^ 64 ≤ c then 2 ^ 64 - 1 else c

/-- The source expression `(x as f64 * (1.0 + SLIPPAGE)).ceil() as u64`. -/
def slippageUp (x : Nat) : Nat :=
  castU64 (ceilND (f64mul (f64ofNat x) onePlusSlippage))

/-- The source expression `(x as f64 * (1.0 - SLIPPAGE)).floor() as u64`. -/
def slippageDown (x : Nat) : Nat :=
  castU64 (floorND (f64mul (f64ofNat x) oneMinusSlippage))


/-! ## Data model

The structures below mirror, field for field, the account snapshots and
argument records that the source reads and assembles. -/

/-- A raw account as returned by `RpcClient::get_account` and
`get_multiple_accounts`: the client only uses the owner and the data. -/
structure AccountInfo where
  owner : Pubkey
  data : List Nat

deriving instance DecidableEq for AccountInfo

/-- The fields of an unpacked SPL token account (`spl_token::state::Account`)
that the client reads. -/
structure TokenAccount where
  amount : Nat

deriving instance DecidableEq for TokenAccount

/-- The fields of a decoded `raydium_cp_swap::states::PoolState` account
that the client reads.  `vault_amount_without_fee` is a method of the
external crate (it subtracts accumulated protocol and fund fees); the
model keeps it abstract as a function of the two vault balances. -/
structure PoolState where
  token_0_vault : Pubkey
  token_1_vault : Pubkey
  lp_mint : Pubkey
  lp_supply : Nat
  vault_amount_without_fee : Nat → Nat → Nat × Nat

/-- A decoded `raydium_cp_swap::states::AmmConfig` account (the fields
the client reads when listing configurations). -/
structure AmmConfig where
  index : Nat
  trade_fee_rate : Nat
  protocol_fee_rate : Nat

deriving instance DecidableEq for AmmConfig

/-- The struct `PoolLiquidity` of the source. -/
structure PoolLiquidity where
  token_0_amount : Nat
  token_1_amount : Nat
  lp_supply : Nat

deriving instance DecidableEq for PoolLiquidity

/-- The struct `InitializationKeys` of the source. -/
structure InitializationKeys where
  token_0_vault : Pubkey
  token_1_vault : Pubkey
  pool_state : Pubkey
  pool_authority : Pubkey
  lp_mint : Pubkey
  creator_token_0 : Pubkey
  creator_token_1 : Pubkey
  creator_lp_ata : Pubkey

deriving instance DecidableEq for InitializationKeys

/-- The anchor account record `accounts::Initialize` of the external
raydium_cp_swap crate, exactly as the source fills it. -/
structure InitializeAccounts where
  creator : Pubkey
  amm_config : Pubkey
  authority : Pubkey
  pool_state : Pubkey
  token_0_mint : Pubkey
  token_1_mint : Pubkey
  lp_mint : Pubkey
  creator_token_0 : Pubkey
  creator_token_1 : Pubkey
  creator_lp_token : Pubkey
  token_0_vault : Pubkey
  token_1_vault : Pubkey
  create_pool_fee : Pubkey
  observation_state : Pubkey
  token_program : Pubkey
  token_0_program : Pubkey
  token_1_program : Pubkey
  associated_token_program : Pubkey
  system_program : Pubkey
  rent : Pubkey

deriving instance DecidableEq for InitializeAccounts

/-- The anchor argument record `instruction::Initialize`. -/
structure InitializeArgs where
  init_amount_0 : Nat
  init_amount_1 : Nat
  open_time : Nat

deriving instance DecidableEq for InitializeArgs

/-- The anchor account record `accounts::Deposit`, as the source fills it. -/
structure DepositAccounts where
  owner : Pubkey
  authority : Pubkey
  pool_state : Pubkey
  owner_lp_token : Pubkey
  token_0_account : Pubkey
  token_1_account : Pubkey
  token_0_vault : Pubkey
  token_1_vault : Pubkey
  token_program : Pubkey
  token_program_2022 : Pubkey
  vault_0_mint : Pubkey
  vault_1_mint : Pubkey
  lp_mint : Pubkey

deriving instance DecidableEq for DepositAccounts

/-- The anchor argument record `instruction::Deposit`. -/
structure DepositArgs where
  lp_token_amount : Nat
  maximum_token_0_amount : Nat
  maximum_token_1_amount : Nat

deriving instance DecidableEq for DepositArgs

/-- The anchor account record `accounts::Withdraw`, as the source fills it. -/
structure WithdrawAccounts where
  owner : Pubkey
  authority : Pubkey
  pool_state : Pubkey
  owner_lp_token : Pubkey
  token_0_account : Pubkey
  token_1_account : Pubkey
  token_0_vault : Pubkey
  token_1_vault : Pubkey
  token_program : Pubkey
  token_program_2022 : Pubkey
  vault_0_mint : Pubkey
  vault_1_mint : Pubkey
  lp_mint : Pubkey
  memo_program : Pubkey

deriving instance DecidableEq for WithdrawAccounts

/-- The anchor argument record `instruction::Withdraw`. -/
structure WithdrawArgs where
  lp_token_amount : Nat
  minimum_token_0_amount : Nat
  minimum_token_1_amount : Nat

deriving instance DecidableEq for WithdrawArgs

/-- A request handed to the anchor instruction builder
(`program.request().accounts(...).args(...).instructions()`). -/
inductive InstrRequest
  | initializePool (accounts : InitializeAccounts) (args : InitializeArgs)
  | deposit (accounts : DepositAccounts) (args : DepositArgs)
  | withdraw (accounts : WithdrawAccounts) (args : WithdrawArgs)

deriving instance DecidableEq for InstrRequest

/-- An instruction appearing in a transaction: either the (pure, external)
`create_associated_token_account_idempotent` helper instruction, or an
instruction produced by the anchor builder from a request. -/
inductive Instruction
  | createAtaIdempotent (funding owner mint token_program : Pubkey)
  | anchor (req : InstrRequest)

deriving instance DecidableEq for Instruction

/-- A signed transaction as assembled by
`Transaction::new_signed_with_payer`. -/
structure Transaction where
  instructions : List Instruction
  payer : Pubkey
  signers : List Pubkey
  blockhash : Blockhash

deriving instance DecidableEq for Transaction

/-- One observable remote effect of the client. -/
inductive Event
  | getAccount (key : Pubkey)
  | fetchAccount (key : Pubkey)
  | fetchProgramAccounts
  | getMultipleAccounts (keys : List Pubkey)
  | getLatestBlockhash
  | sendTransaction (tx : Transaction)

deriving instance DecidableEq for Event

/-- The outcome of running one client computation: the list of remote
effects it performed, in order, and its `anyhow::Result`. -/
structure Tr (α : Type) where
  trace : List Event
  result : Except String α

deriving instance DecidableEq for Except

instance {α : Type} [DecidableEq α] : DecidableEq (Tr α) := fun x y =>
  decidable_of_iff (x.trace = y.trace ∧ x.result = y.result)
    (by cases x; cases y; simp)

/-- Sequencing of traced computations: on error the continuation does not
run (the `?` operator of the source); on success the traces concatenate. -/
def Tr.bind {α β : Type} (x : Tr α) (f : α → Tr β) : Tr β :=
  match x.result with
  | .error e => ⟨x.trace, .error e⟩
  | .ok a => ⟨x.trace ++ (f a).trace, (f a).result⟩

/-- A computation with no effects and a successful result. -/
def Tr.pureT {α : Type} (a : α) : Tr α := ⟨[], .ok a⟩

instance : Monad Tr where
  pure := Tr.pureT
  bind := Tr.bind

/-- Lift a pure `Result` (no remote effect) into a traced computation. -/
def liftE {α : Type} (r : Except String α) : Tr α := ⟨[], r⟩

/-- The `anyhow` `.context(msg)` combinator: a failure is reported under
the short descriptive cause `msg`. -/
def withContext {α : Type} (msg : String) (x : Tr α) : Tr α :=
  ⟨x.trace, match x.result with
    | .error e => .error (msg ++ ": " ++ e)
    | .ok a => .ok a⟩

/-- Observe a computation's result without propagating its failure: the
`if let Ok(...)` pattern of the source.  The effects still happen. -/
def tryTr {α : Type} (x : Tr α) : Tr (Except String α) := ⟨x.trace, .ok x.result⟩

/-- The rounding directions of the external curve calculator
(`raydium_cp_swap::curve::RoundDirection`). -/
inductive RoundDirection
  | Floor
  | Ceiling

deriving instance DecidableEq for RoundDirection

/-- The type of the external curve conversion
`CurveCalculator::lp_tokens_to_trading_tokens` (u128 inputs: requested
LP amount, LP supply, token-0 amount, token-1 amount; `None` signals a
checked-arithmetic failure). -/
abbrev CurveFn :=
  Nat → Nat → Nat → Nat → RoundDirection → Option (Nat × Nat)

/-- The environment: the remote node's responses, plus the pure external
library functions the client delegates to (`find_program_address`, the
associated-token-address derivation, `Account::unpack`, the anchor
instruction builder, and the curve calculator).  A fixed environment
makes every client operation a deterministic function. -/
structure Env where
  programId : Pubkey
  payer : Pubkey
  findProgramAddress : List Seed → Pubkey → Pubkey × Nat
  getAta : Pubkey → Pubkey → Pubkey → Pubkey
  getAccount : Pubkey → Except String AccountInfo
  fetchPoolState : Pubkey → Except String PoolState
  fetchAmmConfig : Pubkey → Except String AmmConfig
  allAmmConfigs : Except String (List (Pubkey × AmmConfig))
  getMultipleAccounts : List Pubkey → Except String (List (Option AccountInfo))
  getLatestBlockhash : Except String Blockhash
  sendAndConfirm : Transaction → Except String Signature
  buildInstructions : InstrRequest → Except String (List Instruction)
  unpackTokenAccount : List Nat → Except String TokenAccount
  readKeypair : Except String Unit
  curve : CurveFn

/-- The RPC call `client_rpc.get_account(key)`. -/
def rpcGetAccount (env : Env) (key : Pubkey) : Tr AccountInfo :=
  ⟨[Event.getAccount key], env.getAccount key⟩

/-- The deserializing fetch `program.account::<PoolState>(key)`. -/
def rpcFetchPoolState (env : Env) (key : Pubkey) : Tr PoolState :=
  ⟨[Event.fetchAccount key], env.fetchPoolState key⟩

/-- The deserializing fetch `program.account::<AmmConfig>(key)`. -/
def rpcFetchAmmConfig (env : Env) (key : Pubkey) : Tr AmmConfig :=
  ⟨[Event.fetchAccount key], env.fetchAmmConfig key⟩

/-- The scan `program.accounts::<AmmConfig>(vec![])`. -/
def rpcFetchProgramAccounts (env : Env) : Tr (List (Pubkey × AmmConfig)) :=
  ⟨[Event.fetchProgramAccounts], env.allAmmConfigs⟩

/-- The RPC call `client_rpc.get_multiple_accounts(keys)`. -/
def rpcGetMultipleAccounts (env : Env) (keys : List Pubkey) :
    Tr (List (Option AccountInfo)) :=
  ⟨[Event.getMultipleAccounts keys], env.getMultipleAccounts keys⟩

/-- The RPC call `client_rpc.get_latest_blockhash()`. -/
def rpcGetLatestBlockhash (env : Env) : Tr Blockhash :=
  ⟨[Event.getLatestBlockhash], env.getLatestBlockhash⟩

/-- The RPC call `client_rpc.send_and_confirm_transaction_with_spinner(tx)`. -/
def rpcSend (env : Env) (tx : Transaction) : Tr Signature :=
  ⟨[Event.sendTransaction tx], env.sendAndConfirm tx⟩

/-! ## Deterministic address derivation

Each helper below is a pure function of the external
`find_program_address` function, the program id, and its explicit
inputs: no environment response enters, so no on-chain lookup is
involved.  The seed lists are exactly those of the source. -/

/-- Derivation of the pool state address (source lines 117-125). -/
def derivePoolState (fpa : List Seed → Pubkey → Pubkey × Nat)
    (programId ammConfigKey token0Mint token1Mint : Pubkey) : Pubkey :=
  (fpa [Seed.str POOL_SEED, Seed.key ammConfigKey,
        Seed.key token0Mint, Seed.key token1Mint] programId).1

/-- Derivation of the pool authority address (source lines 127-128). -/
def deriveAuthority (fpa : List Seed → Pubkey → Pubkey × Nat)
    (programId : Pubkey) : Pubkey :=
  (fpa [Seed.str AUTH_SEED] programId).1

/-- Derivation of a token vault address (source lines 178-194). -/
def deriveVault (fpa : List Seed → Pubkey → Pubkey × Nat)
    (programId poolState mint : Pubkey) : Pubkey :=
  (fpa [Seed.str POOL_VAULT_SEED, Seed.key poolState, Seed.key mint] programId).1

/-- Derivation of the LP mint address (source lines 196-199). -/
def deriveLpMint (fpa : List Seed → Pubkey → Pubkey × Nat)
    (programId poolState : Pubkey) : Pubkey :=
  (fpa [Seed.str POOL_LP_MINT_SEED, Seed.key poolState] programId).1

/-- Derivation of the observation state address (source lines 201-204). -/
def deriveObservation (fpa : List Seed → Pubkey → Pubkey × Nat)
    (programId poolState : Pubkey) : Pubkey :=
  (fpa [Seed.str OBSERVATION_SEED, Seed.key poolState] programId).1

/-- Derivation of the AMM config address by index (source lines 633-636). -/
def deriveAmmConfig (fpa : List Seed → Pubkey → Pubkey × Nat)
    (programId : Pubkey) (index : Nat) : Pubkey :=
  (fpa [Seed.str AMM_CONFIG_SEED, Seed.u16be index] programId).1

/-- `get_associated_token_address(wallet, mint)` of the external crate:
the same derivation with the token program fixed to `spl_token::id()`. -/
def getAssociatedTokenAddress (env : Env) (wallet mint : Pubkey) : Pubkey :=
  env.getAta wallet mint spl_token_id

/-- The constant `u64::MAX` (`2 ^ 64 - 1`). -/
def u64MAX : Nat := 2 ^ 64 - 1

/-! ## Client operations -/

/-- The pure tail of `calculate_token_amounts` (source lines 582-611):
curve conversion with `RoundDirection::Ceiling`, overflow guard before
the `as u64` casts (modelled, like Rust `as`, as truncation `% 2 ^ 64`),
then the hardcoded 1% slippage adjustment in binary64 arithmetic. -/
def token_amounts_from_liquidity (curve : CurveFn) (pool_liquidity : PoolLiquidity)
    (lp_token_amount : Nat) (deposit : Bool) : Except String (Nat × Nat) :=
  match curve lp_token_amount pool_liquidity.lp_supply
      pool_liquidity.token_0_amount pool_liquidity.token_1_amount
      RoundDirection.Ceiling with
  | none => .error ("failed to calculate amounts")
  | some results =>
    if u64MAX < results.1 ∨ u64MAX < results.2 then
      .error ("token amount too large for u64")
    else
      let token_0_amount := results.1 % 2 ^ 64
      let token_1_amount := results.2 % 2 ^ 64
      if deposit then
        .ok (slippageUp token_0_amount, slippageUp token_1_amount)
      else
        .ok (slippageDown token_0_amount, slippageDown token_1_amount)

/-- `get_pool_liquidity` (source lines 643-669). -/
def get_pool_liquidity (env : Env) (pool_state : Pubkey) : Tr PoolLiquidity := do
  let pool_data ← withContext ("failed to fetch pool state")
    (rpcFetchPoolState env pool_state)
  let vault_accounts ← rpcGetMultipleAccounts env
    [pool_data.token_0_vault, pool_data.token_1_vault]
  match vault_accounts with
  | [some a, some b] => do
    let token_0_vault_info ← liftE (env.unpackTokenAccount a.data)
    let token_1_vault_info ← liftE (env.unpackTokenAccount b.data)
    let amounts := pool_data.vault_amount_without_fee
      token_0_vault_info.amount token_1_vault_info.amount
    Tr.pureT ⟨amounts.1, amounts.2, pool_data.lp_supply⟩
  | _ => liftE (.error ("failed to fetch vault accounts"))

/-- `calculate_token_amounts` (source lines 574-612): a fresh liquidity
query followed by the pure conversion. -/
def calculate_token_amounts (env : Env) (pool_state : Pubkey)
    (lp_token_amount : Nat) (deposit : Bool) : Tr (Nat × Nat) := do
  let pool_liquidity ← get_pool_liquidity env pool_state
  liftE (token_amounts_from_liquidity env.curve pool_liquidity lp_token_amount deposit)

/-- `create_deposit_instructions` (source lines 327-387). -/
def create_deposit_instructions (env : Env)
    (pool_state pool_authority lp_mint token_0_mint token_1_mint
      token_0_vault token_1_vault owner_token_0 owner_token_1 owner_lp : Pubkey)
    (lp_token_amount : Nat) : Tr (List Instruction) := do
  let create_ata :=
    Instruction.createAtaIdempotent env.payer env.payer lp_mint spl_token_id
  let deposit_accounts : DepositAccounts :=
    { owner := env.payer
      authority := pool_authority
      pool_state := pool_state
      owner_lp_token := owner_lp
      token_0_account := owner_token_0
      token_1_account := owner_token_1
      token_0_vault := token_0_vault
      token_1_vault := token_1_vault
      token_program := spl_token_id
      token_program_2022 := spl_token_2022_id
      vault_0_mint := token_0_mint
      vault_1_mint := token_1_mint
      lp_mint := lp_mint }
  let amounts ← calculate_token_amounts env pool_state lp_token_amount true
  let deposit_args : DepositArgs :=
    { lp_token_amount := lp_token_amount
      maximum_token_0_amount := amounts.1
      maximum_token_1_amount := amounts.2 }
  let deposit_instructions ← withContext ("failed to build deposit instructions")
    (liftE (env.buildInstructions (InstrRequest.deposit deposit_accounts deposit_args)))
  Tr.pureT ([create_ata] ++ deposit_instructions)

/-- `create_withdrawal_instructions` (source lines 439-508). -/
def create_withdrawal_instructions (env : Env)
    (pool_state pool_authority lp_mint token_0_mint token_1_mint
      token_0_vault token_1_vault owner_token_0 owner_token_1 owner_lp : Pubkey)
    (lp_token_amount : Nat) : Tr (List Instruction) := do
  let create_token_0_ata :=
    Instruction.createAtaIdempotent env.payer env.payer token_0_mint spl_token_id
  let create_token_1_ata :=
    Instruction.createAtaIdempotent env.payer env.payer token_1_mint spl_token_id
  let withdrawal_accounts : WithdrawAccounts :=
    { owner := env.payer
      authority := pool_authority
      pool_state := pool_state
      owner_lp_token := owner_lp
      token_0_account := owner_token_0
      token_1_account := owner_token_1
      token_0_vault := token_0_vault
      token_1_vault := token_1_vault
      token_program := spl_token_id
      token_program_2022 := spl_token_2022_id
      vault_0_mint := token_0_mint
      vault_1_mint := token_1_mint
      lp_mint := lp_mint
      memo_program := spl_memo_id }
  let amounts ← calculate_token_amounts env pool_state lp_token_amount false
  let withdrawal_args : WithdrawArgs :=
    { lp_token_amount := lp_token_amount
      minimum_token_0_amount := amounts.1
      minimum_token_1_amount := amounts.2 }
  let withdrawal_instructions ← withContext ("failed to build withdraw instructions")
    (liftE (env.buildInstructions (InstrRequest.withdraw withdrawal_accounts withdrawal_args)))
  Tr.pureT ([create_token_0_ata, create_token_1_ata] ++ withdrawal_instructions)

/-- `add_liquidity` (source lines 278-324). -/
def add_liquidity (env : Env)
    (pool_state pool_authority lp_mint token_0_mint token_1_mint
      token_0_vault token_1_vault owner_token_0 owner_token_1 owner_lp : Pubkey)
    (lp_token_amount : Nat) : Tr Signature := do
  let tx_instructions ← create_deposit_instructions env pool_state pool_authority
    lp_mint token_0_mint token_1_mint token_0_vault token_1_vault
    owner_token_0 owner_token_1 owner_lp lp_token_amount
  let recent_blockhash ← withContext ("failed to get recent blockhash")
    (rpcGetLatestBlockhash env)
  let transaction : Transaction :=
    { instructions := tx_instructions
      payer := env.payer
      signers := [env.payer]
      blockhash := recent_blockhash }
  withContext ("failed to send add_liquidity transaction") (rpcSend env transaction)

/-- `remove_liquidity` (source lines 390-436). -/
def remove_liquidity (env : Env)
    (pool_state pool_authority lp_mint token_0_mint token_1_mint
      token_0_vault token_1_vault owner_token_0 owner_token_1 owner_lp : Pubkey)
    (lp_token_amount : Nat) : Tr Signature := do
  let tx_instructions ← create_withdrawal_instructions env pool_state pool_authority
    lp_mint token_0_mint token_1_mint token_0_vault token_1_vault
    owner_token_0 owner_token_1 owner_lp lp_token_amount
  let recent_blockhash ← withContext ("failed to get recent blockhash")
    (rpcGetLatestBlockhash env)
  let transaction : Transaction :=
    { instructions := tx_instructions
      payer := env.payer
      signers := [env.payer]
      blockhash := recent_blockhash }
  withContext ("failed to send remove_liquidity transaction") (rpcSend env transaction)

/-- `add_and_remove_liquidity` (source lines 511-571): deposit
instructions, then withdrawal instructions, combined into one
transaction. -/
def add_and_remove_liquidity (env : Env)
    (pool_state pool_authority lp_mint token_0_mint token_1_mint
      token_0_vault token_1_vault owner_token_0 owner_token_1 owner_lp : Pubkey)
    (lp_token_amount : Nat) : Tr Signature := do
  let deposit_instructions ← create_deposit_instructions env pool_state pool_authority
    lp_mint token_0_mint token_1_mint token_0_vault token_1_vault
    owner_token_0 owner_token_1 owner_lp lp_token_amount
  let withdrawal_instructions ← create_withdrawal_instructions env pool_state pool_authority
    lp_mint token_0_mint token_1_mint token_0_vault token_1_vault
    owner_token_0 owner_token_1 owner_lp lp_token_amount
  let tx_instructions := deposit_instructions ++ withdrawal_instructions
  let recent_blockhash ← withContext ("failed to get recent blockhash")
    (rpcGetLatestBlockhash env)
  let transaction : Transaction :=
    { instructions := tx_instructions
      payer := env.payer
      signers := [env.payer]
      blockhash := recent_blockhash }
  withContext ("failed to send add_and_remove_liquidity transaction") (rpcSend env transaction)

/-- The builder request assembled by `initialize_pool` (source lines
208-243): the `accounts::Initialize` record, with every program-derived
account computed by the derivation helpers, and the
`instruction::Initialize` arguments. -/
def initializeRequest (env : Env)
    (amm_config_key token_0_mint token_1_mint token_0_program token_1_program : Pubkey)
    (token_0_amount token_1_amount open_time : Nat) : InstrRequest :=
  let pool_state := derivePoolState env.findProgramAddress env.programId
    amm_config_key token_0_mint token_1_mint
  InstrRequest.initializePool
    { creator := env.payer
      amm_config := amm_config_key
      authority := deriveAuthority env.findProgramAddress env.programId
      pool_state := pool_state
      token_0_mint := token_0_mint
      token_1_mint := token_1_mint
      lp_mint := deriveLpMint env.findProgramAddress env.programId pool_state
      creator_token_0 := env.getAta env.payer token_0_mint token_0_program
      creator_token_1 := env.getAta env.payer token_1_mint token_1_program
      creator_lp_token := env.getAta env.payer
        (deriveLpMint env.findProgramAddress env.programId pool_state) spl_token_id
      token_0_vault := deriveVault env.findProgramAddress env.programId
        pool_state token_0_mint
      token_1_vault := deriveVault env.findProgramAddress env.programId
        pool_state token_1_mint
      create_pool_fee := create_pool_fee_receiver_id
      observation_state := deriveObservation env.findProgramAddress env.programId
        pool_state
      token_program := spl_token_id
      token_0_program := token_0_program
      token_1_program := token_1_program
      associated_token_program := associated_token_program_id
      system_program := system_program_id
      rent := rent_sysvar_id }
    { init_amount_0 := token_0_amount
      init_amount_1 := token_1_amount
      open_time := open_time }

/-- `initialize_pool` (source lines 90-275). -/
def initialize_pool (env : Env) (amm_config_key token_0_mint token_1_mint : Pubkey)
    (token_0_amount token_1_amount open_time : Nat) :
    Tr (Option Signature × InitializationKeys) :=
  if token_0_amount = 0 ∨ token_1_amount = 0 then
    liftE (.error ("initial amounts cannot be zero"))
  else do
    let acc0 ← withContext ("failed to get token_0_mint owner")
      (rpcGetAccount env token_0_mint)
    let token_0_program := acc0.owner
    let acc1 ← withContext ("failed to get token_1_mint owner")
      (rpcGetAccount env token_1_mint)
    let token_1_program := acc1.owner
    let pool_state := derivePoolState env.findProgramAddress env.programId
      amm_config_key token_0_mint token_1_mint
    let pool_authority := deriveAuthority env.findProgramAddress env.programId
    let creator_token_0 := env.getAta env.payer token_0_mint token_0_program
    let creator_token_1 := env.getAta env.payer token_1_mint token_1_program
    let probe ← tryTr (rpcFetchPoolState env pool_state)
    match probe with
    | .ok pool_data =>
      -- the pool already exists: return its data instead of initializing
      let token_0_vault := pool_data.token_0_vault
      let token_1_vault := pool_data.token_1_vault
      let lp_mint := pool_data.lp_mint
      let creator_lp_ata := getAssociatedTokenAddress env env.payer lp_mint
      Tr.pureT (none,
        { token_0_vault := token_0_vault
          token_1_vault := token_1_vault
          pool_state := pool_state
          pool_authority := pool_authority
          lp_mint := lp_mint
          creator_token_0 := creator_token_0
          creator_token_1 := creator_token_1
          creator_lp_ata := creator_lp_ata })
    | .error _ => do
      let token_0_vault := deriveVault env.findProgramAddress env.programId
        pool_state token_0_mint
      let token_1_vault := deriveVault env.findProgramAddress env.programId
        pool_state token_1_mint
      let lp_mint := deriveLpMint env.findProgramAddress env.programId pool_state
      let creator_lp_ata := getAssociatedTokenAddress env env.payer lp_mint
      let initialization_instructions ← withContext
        ("failed to build initialization instructions")
        (liftE (env.buildInstructions
          (initializeRequest env amm_config_key token_0_mint token_1_mint
            token_0_program token_1_program token_0_amount token_1_amount open_time)))
      let recent_blockhash ← withContext ("failed to get recent blockhash")
        (rpcGetLatestBlockhash env)
      let transaction : Transaction :=
        { instructions := initialization_instructions
          payer := env.payer
          signers := [env.payer]
          blockhash := recent_blockhash }
      let signature ← withContext ("failed to send initialization transaction")
        (rpcSend env transaction)
      Tr.pureT (some signature,
        { token_0_vault := token_0_vault
          token_1_vault := token_1_vault
          pool_state := pool_state
          pool_authority := pool_authority
          lp_mint := lp_mint
          creator_token_0 := creator_token_0
          creator_token_1 := creator_token_1
          creator_lp_ata := creator_lp_ata })

/-- `list_amm_configs` (source lines 615-629); the logging is a no-op in
the model. -/
def list_amm_configs (env : Env) : Tr Unit := do
  let _configs ← rpcFetchProgramAccounts env
  Tr.pureT ()

/-- `get_amm_config_by_index` (source lines 632-640). -/
def get_amm_config_by_index (env : Env) (index : Nat) : Tr (Pubkey × AmmConfig) := do
  let amm_config_key := deriveAmmConfig env.findProgramAddress env.programId index
  let config ← rpcFetchAmmConfig env amm_config_key
  Tr.pureT (amm_config_key, config)

/-- `order_tokens` (source lines 811-817). -/
def order_tokens (token_a token_b : Pubkey) : Pubkey × Pubkey :=
  if token_a < token_b then (token_a, token_b) else (token_b, token_a)

/-- `main` (source lines 672-808).  Reading the wallet file is the run's
first fallible step; the payer identity itself is `env.payer`, and the
logging statements are no-ops in the model. -/
def mainRun (env : Env) : Tr Unit := do
  let _ ← liftE (match env.readKeypair with
    | .error e => .error ("failed to read keypair file: " ++ e)
    | .ok _ => .ok ())
  let _ ← list_amm_configs env
  let cfg ← get_amm_config_by_index env 0
  let amm_config_key := cfg.1
  let ordered := order_tokens tokenA tokenB
  let token_0_mint := ordered.1
  let token_1_mint := ordered.2
  let init ← initialize_pool env amm_config_key token_0_mint token_1_mint
    1000000000 1000000000 0
  let init_keys := init.2
  let _ ← get_pool_liquidity env init_keys.pool_state
  let _ ← add_liquidity env init_keys.pool_state init_keys.pool_authority
    init_keys.lp_mint token_0_mint token_1_mint init_keys.token_0_vault
    init_keys.token_1_vault init_keys.creator_token_0 init_keys.creator_token_1
    init_keys.creator_lp_ata 10000000
  let _ ← get_pool_liquidity env init_keys.pool_state
  let _ ← remove_liquidity env init_keys.pool_state init_keys.pool_authority
    init_keys.lp_mint token_0_mint token_1_mint init_keys.token_0_vault
    init_keys.token_1_vault init_keys.creator_token_0 init_keys.creator_token_1
    init_keys.creator_lp_ata 10000000
  let _ ← get_pool_liquidity env init_keys.pool_state
  let _ ← add_and_remove_liquidity env init_keys.pool_state init_keys.pool_authority
    init_keys.lp_mint token_0_mint token_1_mint init_keys.token_0_vault
    init_keys.token_1_vault init_keys.creator_token_0 init_keys.creator_token_1
    init_keys.creator_lp_ata 10000000
  let _ ← get_pool_liquidity env init_keys.pool_state
  Tr.pureT ()

/-- The common submission tail of `add_liquidity`, `remove_liquidity`
and `add_and_remove_liquidity`: fetch a recent blockhash, sign one
transaction over the built instruction list with the payer, submit it
once, and return the confirmation signature. -/
def submitOne (env : Env) (builder : Tr (List Instruction)) (msg : String) :
    Tr Signature :=
  Tr.bind builder (fun tx_instructions =>
    Tr.bind (withContext ("failed to get recent blockhash") (rpcGetLatestBlockhash env))
      (fun recent_blockhash =>
        withContext msg (rpcSend env
          { instructions := tx_instructions
            payer := env.payer
            signers := [env.payer]
            blockhash := recent_blockhash })))

/-! ## Specification-side definitions for claim C1 -/

/-- Claim C1 as stated: the converted amounts come from the curve with
ceiling rounding for deposits and floor rounding for withdrawals, and
the maxima/minima are the converted amounts exactly increased/decreased
by 1% (rounded protectively: up for a maximum, down for a minimum,
matching the outer rounding the code itself uses). -/
def token_amounts_spec_claimC1 (curve : CurveFn) (pool_liquidity : PoolLiquidity)
    (lp_token_amount : Nat) (deposit : Bool) : Except String (Nat × Nat) :=
  match curve lp_token_amount pool_liquidity.lp_supply
      pool_liquidity.token_0_amount pool_liquidity.token_1_amount
      (if deposit then RoundDirection.Ceiling else RoundDirection.Floor) with
  | none => .error ("failed to calculate amounts")
  | some results =>
    if u64MAX < results.1 ∨ u64MAX < results.2 then
      .error ("token amount too large for u64")
    else
      let t0 := results.1 % 2 ^ 64
      let t1 := results.2 % 2 ^ 64
      if deposit then
        .ok ((101 * t0 + 99) / 100, (101 * t1 + 99) / 100)
      else
        .ok (99 * t0 / 100, 99 * t1 / 100)

/-- Claim C1 as amended: the curve conversion uses ceiling rounding for
deposits and withdrawals alike, and the slippage margin multiplies by
`1.0 + 0.01` (for maxima, rounded up) or `1.0 - 0.01` (for minima,
rounded down) in binary64 arithmetic — hence only approximately 1%. -/
def token_amounts_spec_amended (curve : CurveFn) (pool_liquidity : PoolLiquidity)
    (lp_token_amount : Nat) (deposit : Bool) : Except String (Nat × Nat) :=
  match curve lp_token_amount pool_liquidity.lp_supply
      pool_liquidity.token_0_amount pool_liquidity.token_1_amount
      RoundDirection.Ceiling with
  | none => .error ("failed to calculate amounts")
  | some results =>
    if results.1 ≤ u64MAX ∧ results.2 ≤ u64MAX then
      if deposit then
        .ok (slippageUp (results.1 % 2 ^ 64), slippageUp (results.2 % 2 ^ 64))
      else
        .ok (slippageDown (results.1 % 2 ^ 64), slippageDown (results.2 % 2 ^ 64))
    else
      .error ("token amount too large for u64")

/-- Number of transaction submissions recorded in a trace. -/
def sends (t : List Event) : Nat :=
  (t.filter fun e => match e with
    | Event.sendTransaction _ => true
    | _ => false).length

/-! ## Concrete environments

Used to evaluate the theorems on closed inputs. -/

/-- A concrete pool state snapshot whose fee subtraction is the identity. -/
def poolStateW : PoolState :=
  { token_0_vault := 21
    token_1_vault := 22
    lp_mint := 23
    lp_supply := 5
    vault_amount_without_fee := fun a b => (a, b) }

/-- A concrete environment in which every remote call succeeds. -/
def envW : Env where
  programId := 1
  payer := 2
  findProgramAddress := fun _ _ => (9, 255)
  getAta := fun _ _ _ => 3
  getAccount := fun _ => .ok { owner := 5, data := [] }
  fetchPoolState := fun _ => .ok poolStateW
  fetchAmmConfig := fun _ => .ok { index := 0, trade_fee_rate := 10, protocol_fee_rate := 20 }
  allAmmConfigs := .ok []
  getMultipleAccounts := fun _ =>
    .ok [some { owner := 5, data := [] }, some { owner := 5, data := [] }]
  getLatestBlockhash := .ok 77
  sendAndConfirm := fun _ => .ok 99
  buildInstructions := fun r => .ok [Instruction.anchor r]
  unpackTokenAccount := fun _ => .ok { amount := 100 }
  readKeypair := .ok ()
  curve := fun _ _ _ _ _ => some (7, 8)

/-- Like `envW` but the pool state account does not decode (for example,
the pool does not exist yet). -/
def envProbeFail : Env :=
  { envW with fetchPoolState := fun _ => .error ("account not found") }

/-- Like `envW` but fetching the latest blockhash fails. -/
def envBhFail : Env :=
  { envW with getLatestBlockhash := .error ("connection refused") }

/-- Like `envW` but the AMM config account fetch fails. -/
def envCfgFail : Env :=
  { envW with fetchAmmConfig := fun _ => .error ("AccountNotFound") }

/-- Like `envW` but the curve conversion reports a checked-arithmetic
failure. -/
def envCurveNone : Env :=
  { envW with curve := fun _ _ _ _ _ => none }

/-- Like `envW` but the curve returns `2 ^ 60` for both tokens: large
enough that the binary64 slippage product is no longer within one unit
of the exact 1% increase. -/
def envC1dep : Env :=
  { envW with curve := fun _ _ _ _ _ => some (2 ^ 60, 2 ^ 60) }

/-- A concrete constant-product curve honouring the requested rounding
direction (floor or ceiling of `lp * reserve / supply`). -/
def cpCurve : CurveFn := fun lp supply t0 t1 dir =>
  if supply = 0 then none
  else match dir with
    | RoundDirection.Floor => some (lp * t0 / supply, lp * t1 / supply)
    | RoundDirection.Ceiling =>
      some ((lp * t0 + supply - 1) / supply, (lp * t1 + supply - 1) / supply)

/-- Like `envW` but with the constant-product curve and a pool holding
10 of each token against an LP supply of 3, so that floor and ceiling
conversions differ. -/
def envC1wd : Env :=
  { envW with
    curve := cpCurve
    fetchPoolState := fun _ => .ok
      { token_0_vault := 21
        token_1_vault := 22
        lp_mint := 23
        lp_supply := 3
        vault_amount_without_fee := fun a b => (a, b) }
    unpackTokenAccount := fun _ => .ok { amount := 10 } }

/-- The trace of an instruction-building call in `envW` (and its
variants): one pool-state fetch and one vault query. -/
def tdW : List Event := [Event.fetchAccount 11, Event.getMultipleAccounts [21, 22]]

/-- The deposit instruction list built in `envW` for pool 11 and
requested LP amount 5: the curve returns `(7, 8)`, so the maxima after
the binary64 1% margin are `(8, 9)`. -/
def diW : List Instruction :=
  [Instruction.createAtaIdempotent 2 2 13 spl_token_id,
   Instruction.anchor (InstrRequest.deposit
     { owner := 2
       authority := 12
       pool_state := 11
       owner_lp_token := 20
       token_0_account := 18
       token_1_account := 19
       token_0_vault := 16
       token_1_vault := 17
       token_program := spl_token_id
       token_program_2022 := spl_token_2022_id
       vault_0_mint := 14
       vault_1_mint := 15
       lp_mint := 13 }
     { lp_token_amount := 5
       maximum_token_0_amount := 8
       maximum_token_1_amount := 9 })]

/-- The withdrawal instruction list built in `envW` for the same call:
the minima after the binary64 1% margin are `(6, 7)`. -/
def wiW : List Instruction :=
  [Instruction.createAtaIdempotent 2 2 14 spl_token_id,
   Instruction.createAtaIdempotent 2 2 15 spl_token_id,
   Instruction.anchor (InstrRequest.withdraw
     { owner := 2
       authority := 12
       pool_state := 11
       owner_lp_token := 20
       token_0_account := 18
       token_1_account := 19
       token_0_vault := 16
       token_1_vault := 17
       token_program := spl_token_id
       token_program_2022 := spl_token_2022_id
       vault_0_mint := 14
       vault_1_mint := 15
       lp_mint := 13
       memo_program := spl_memo_id }
     { lp_token_amount := 5
       minimum_token_0_amount := 6
       minimum_token_1_amount := 7 })]


/-! ## Helper lemmas about the trace monad -/

theorem tr_bind_eq {α β : Type} (x : Tr α) (f : α → Tr β) :
    x >>= f = Tr.bind x f := rfl

theorem tr_bind_mk_error {α β : Type} (t : List Event) (e : String) (f : α → Tr β) :
    Tr.bind ⟨t, .error e⟩ f = ⟨t, .error e⟩ := rfl

theorem tr_bind_mk_ok {α β : Type} (t : List Event) (a : α) (f : α → Tr β) :
    Tr.bind ⟨t, .ok a⟩ f = ⟨t ++ (f a).trace, (f a).result⟩ := rfl

theorem withContext_mk_error {α : Type} (m : String) (t : List Event) (e : String) :
    withContext m (⟨t, .error e⟩ : Tr α) = ⟨t, .error (m ++ ": " ++ e)⟩ := rfl

theorem withContext_mk_ok {α : Type} (m : String) (t : List Event) (a : α) :
    withContext m (⟨t, .ok a⟩ : Tr α) = ⟨t, .ok a⟩ := rfl

theorem tr_bind_trace_prefix {α β : Type} (x : Tr α) (f : α → Tr β) :
    ∃ rest, (Tr.bind x f).trace = x.trace ++ rest := by
  unfold Tr.bind
  cases h : x.result
  · exact ⟨[], by simp⟩
  · exact ⟨_, rfl⟩

theorem sends_append (t1 t2 : List Event) :
    sends (t1 ++ t2) = sends t1 + sends t2 := by
  simp [sends, List.filter_append]

theorem sends_bind {α β : Type} (x : Tr α) (f : α → Tr β) :
    sends (Tr.bind x f).trace =
      sends x.trace + (match x.result with
        | .ok a => sends (f a).trace
        | .error _ => 0) := by
  unfold Tr.bind
  cases h : x.result <;> simp [h, sends_append]

theorem tr_bind_trace_head {α β : Type} (x : Tr α) (f : α → Tr β) (e : Event)
    (h : x.trace.head? = some e) : (Tr.bind x f).trace.head? = some e := by
  unfold Tr.bind
  cases hr : x.result
  · exact h
  · simp [List.head?_append, h]

theorem get_pool_liquidity_trace_head (env : Env) (p : Pubkey) :
    (get_pool_liquidity env p).trace.head? = some (Event.fetchAccount p) := by
  unfold get_pool_liquidity
  exact tr_bind_trace_head _ _ _ rfl

theorem calculate_token_amounts_trace_head (env : Env) (p : Pubkey)
    (lp : Nat) (dep : Bool) :
    (calculate_token_amounts env p lp dep).trace.head? =
      some (Event.fetchAccount p) := by
  unfold calculate_token_amounts
  exact tr_bind_trace_head _ _ _ (get_pool_liquidity_trace_head env p)

theorem sends_get_pool_liquidity (env : Env) (p : Pubkey) :
    sends (get_pool_liquidity env p).trace = 0 := by
  unfold get_pool_liquidity
  cases h1 : env.fetchPoolState p
  case error e =>
    simp [tr_bind_eq, Tr.bind, withContext, rpcFetchPoolState, h1, sends]
  case ok pd =>
    cases h2 : env.getMultipleAccounts [pd.token_0_vault, pd.token_1_vault]
    case error e =>
      simp [tr_bind_eq, Tr.bind, withContext, rpcFetchPoolState,
        rpcGetMultipleAccounts, h1, h2, sends]
    case ok l =>
      rcases l with _ | ⟨x, _ | ⟨y, _ | ⟨z, rest⟩⟩⟩
      · simp [tr_bind_eq, Tr.bind, withContext, rpcFetchPoolState,
          rpcGetMultipleAccounts, liftE, h1, h2, sends]
      · simp [tr_bind_eq, Tr.bind, withContext, rpcFetchPoolState,
          rpcGetMultipleAccounts, liftE, h1, h2, sends]
      · rcases x with _ | a <;> rcases y with _ | b <;>
          simp [tr_bind_eq, Tr.bind, withContext, rpcFetchPoolState,
            rpcGetMultipleAccounts, liftE, Tr.pureT, h1, h2, sends]
        cases h3 : env.unpackTokenAccount a.data
        case error e => simp [h3, sends]
        case ok ta =>
          cases h4 : env.unpackTokenAccount b.data
          case error e => simp [h3, h4, sends]
          case ok tb => simp [h3, h4, sends]
      · simp [tr_bind_eq, Tr.bind, withContext, rpcFetchPoolState,
          rpcGetMultipleAccounts, liftE, h1, h2, sends]

theorem sends_calculate_token_amounts (env : Env) (p : Pubkey)
    (lp : Nat) (dep : Bool) :
    sends (calculate_token_amounts env p lp dep).trace = 0 := by
  unfold calculate_token_amounts
  rw [tr_bind_eq, sends_bind, sends_get_pool_liquidity]
  cases h : (get_pool_liquidity env p).result <;> simp [h, liftE, sends]

theorem sends_create_deposit (env : Env)
    (ps pa lm t0m t1m v0 v1 o0 o1 ol : Pubkey) (lp : Nat) :
    sends (create_deposit_instructions env ps pa lm t0m t1m
      v0 v1 o0 o1 ol lp).trace = 0 := by
  unfold create_deposit_instructions
  rw [tr_bind_eq, sends_bind, sends_calculate_token_amounts]
  cases h : (calculate_token_amounts env ps lp true).result
  case error e => simp [h]
  case ok a =>
    simp only [h]
    rw [tr_bind_eq, sends_bind]
    cases h2 : env.buildInstructions _ <;>
      simp [h2, withContext, liftE, Tr.pureT, sends]

theorem sends_create_withdrawal (env : Env)
    (ps pa lm t0m t1m v0 v1 o0 o1 ol : Pubkey) (lp : Nat) :
    sends (create_withdrawal_instructions env ps pa lm t0m t1m
      v0 v1 o0 o1 ol lp).trace = 0 := by
  unfold create_withdrawal_instructions
  rw [tr_bind_eq, sends_bind, sends_calculate_token_amounts]
  cases h : (calculate_token_amounts env ps lp false).result
  case error e => simp [h]
  case ok a =>
    simp only [h]
    rw [tr_bind_eq, sends_bind]
    cases h2 : env.buildInstructions _ <;>
      simp [h2, withContext, liftE, Tr.pureT, sends]

theorem add_liquidity_eq_submitOne (env : Env)
    (ps pa lm t0m t1m v0 v1 o0 o1 ol : Pubkey) (lp : Nat) :
    add_liquidity env ps pa lm t0m t1m v0 v1 o0 o1 ol lp =
      submitOne env
        (create_deposit_instructions env ps pa lm t0m t1m v0 v1 o0 o1 ol lp)
        ("failed to send add_liquidity transaction") := rfl

theorem remove_liquidity_eq_submitOne (env : Env)
    (ps pa lm t0m t1m v0 v1 o0 o1 ol : Pubkey) (lp : Nat) :
    remove_liquidity env ps pa lm t0m t1m v0 v1 o0 o1 ol lp =
      submitOne env
        (create_withdrawal_instructions env ps pa lm t0m t1m v0 v1 o0 o1 ol lp)
        ("failed to send remove_liquidity transaction") := rfl

theorem tr_bind_assoc {α β γ : Type} (x : Tr α) (f : α → Tr β) (g : β → Tr γ) :
    Tr.bind (Tr.bind x f) g = Tr.bind x (fun a => Tr.bind (f a) g) := by
  rcases x with ⟨t, r⟩
  cases r
  · rfl
  case ok a =>
    rcases h : f a with ⟨t2, r2⟩
    cases r2 <;> simp [Tr.bind, h, List.append_assoc]

theorem tr_bind_pureT_left {α β : Type} (a : α) (f : α → Tr β) :
    Tr.bind (Tr.pureT a) f = f a := rfl

theorem add_and_remove_eq_submitOne (env : Env)
    (ps pa lm t0m t1m v0 v1 o0 o1 ol : Pubkey) (lp : Nat) :
    add_and_remove_liquidity env ps pa lm t0m t1m v0 v1 o0 o1 ol lp =
      submitOne env
        (Tr.bind (create_deposit_instructions env ps pa lm t0m t1m v0 v1 o0 o1 ol lp)
          (fun di => Tr.bind
            (create_withdrawal_instructions env ps pa lm t0m t1m v0 v1 o0 o1 ol lp)
            (fun wi => Tr.pureT (di ++ wi))))
        ("failed to send add_and_remove_liquidity transaction") := by
  unfold add_and_remove_liquidity submitOne
  simp only [tr_bind_eq, tr_bind_assoc, tr_bind_pureT_left]

theorem submitOne_sends (env : Env) (b : Tr (List Instruction)) (msg : String)
    (hb : sends b.trace = 0) :
    sends (submitOne env b msg).trace ≤ 1 ∧
    ∀ s, (submitOne env b msg).result = .ok s →
      sends (submitOne env b msg).trace = 1 ∧
      ∃ tx, Event.sendTransaction tx ∈ (submitOne env b msg).trace ∧
        env.sendAndConfirm tx = .ok s := by
  rcases b with ⟨tb, rb⟩
  simp only [Tr.trace] at hb
  cases rb
  case error e =>
    have htr : (submitOne env ⟨tb, .error e⟩ msg).trace = tb := rfl
    have hres : (submitOne env ⟨tb, .error e⟩ msg).result = .error e := rfl
    constructor
    · rw [htr, hb]
      decide
    · intro s h
      rw [hres] at h
      exact absurd h (by simp)
  case ok instrs =>
    cases hbh : env.getLatestBlockhash
    case error e =>
      have htr : (submitOne env ⟨tb, .ok instrs⟩ msg).trace =
          tb ++ [Event.getLatestBlockhash] := by
        simp [submitOne, Tr.bind, withContext, rpcGetLatestBlockhash, hbh]
      have hres : (submitOne env ⟨tb, .ok instrs⟩ msg).result =
          .error ("failed to get recent blockhash: " ++ e) := by
        simp [submitOne, Tr.bind, withContext, rpcGetLatestBlockhash, hbh]
      constructor
      · rw [htr, sends_append, hb]
        simp [sends]
      · intro s h
        rw [hres] at h
        exact absurd h (by simp)
    case ok bh =>
      have htr : (submitOne env ⟨tb, .ok instrs⟩ msg).trace =
          tb ++ [Event.getLatestBlockhash,
            Event.sendTransaction
              { instructions := instrs
                payer := env.payer
                signers := [env.payer]
                blockhash := bh }] := by
        cases hs : env.sendAndConfirm
            { instructions := instrs
              payer := env.payer
              signers := [env.payer]
              blockhash := bh } <;>
          simp [submitOne, Tr.bind, withContext, rpcGetLatestBlockhash, rpcSend,
            hbh, hs]
      have hsends : sends (submitOne env ⟨tb, .ok instrs⟩ msg).trace = 1 := by
        rw [htr, sends_append, hb]
        simp [sends]
      constructor
      · rw [hsends]
      · intro s h
        refine ⟨hsends, ⟨{ instructions := instrs
                           payer := env.payer
                           signers := [env.payer]
                           blockhash := bh }, ?_, ?_⟩⟩
        · rw [htr]
          simp
        · cases hs : env.sendAndConfirm
              { instructions := instrs
                payer := env.payer
                signers := [env.payer]
                blockhash := bh }
          case error e =>
            have hres : (submitOne env ⟨tb, .ok instrs⟩ msg).result =
                .error (msg ++ ": " ++ e) := by
              simp [submitOne, Tr.bind, withContext, rpcGetLatestBlockhash,
                rpcSend, hbh, hs]
            rw [hres] at h
            exact absurd h (by simp)
          case ok s2 =>
            have hres : (submitOne env ⟨tb, .ok instrs⟩ msg).result = .ok s2 := by
              simp [submitOne, Tr.bind, withContext, rpcGetLatestBlockhash,
                rpcSend, hbh, hs]
            rw [hres] at h
            injection h with h2
            rw [h2]

theorem initialize_pool_shape (env : Env) (cfg t0m t1m : Pubkey) (a0 a1 ot : Nat) :
    (sends (initialize_pool env cfg t0m t1m a0 a1 ot).trace = 0 ∧
      ∀ s k, (initialize_pool env cfg t0m t1m a0 a1 ot).result ≠ .ok (some s, k)) ∨
    (sends (initialize_pool env cfg t0m t1m a0 a1 ot).trace = 1 ∧
      ∃ tx, Event.sendTransaction tx ∈ (initialize_pool env cfg t0m t1m a0 a1 ot).trace ∧
        (∀ s k, (initialize_pool env cfg t0m t1m a0 a1 ot).result = .ok (some s, k) →
          env.sendAndConfirm tx = .ok s) ∧
        (∀ k, (initialize_pool env cfg t0m t1m a0 a1 ot).result ≠ .ok (none, k))) := by
  by_cases hz : a0 = 0 ∨ a1 = 0
  · left
    have h : initialize_pool env cfg t0m t1m a0 a1 ot =
        ⟨[], .error ("initial amounts cannot be zero")⟩ := by
      unfold initialize_pool
      rw [if_pos hz]
      rfl
    rw [h]
    exact ⟨rfl, by intro s k; simp⟩
  · unfold initialize_pool
    rw [if_neg hz]
    cases h1 : env.getAccount t0m
    next e =>
      left
      constructor
      · simp [tr_bind_eq, Tr.bind, withContext, rpcGetAccount, h1, sends]
      · intro s k
        simp [tr_bind_eq, Tr.bind, withContext, rpcGetAccount, h1]
    next acc0 =>
      cases h2 : env.getAccount t1m
      next e =>
        left
        constructor
        · simp [tr_bind_eq, Tr.bind, withContext, rpcGetAccount, h1, h2, sends]
        · intro s k
          simp [tr_bind_eq, Tr.bind, withContext, rpcGetAccount, h1, h2]
      next acc1 =>
        cases h3 : env.fetchPoolState
            (derivePoolState env.findProgramAddress env.programId cfg t0m t1m)
        next e =>
          cases h4 : env.buildInstructions
              (initializeRequest env cfg t0m t1m acc0.owner acc1.owner a0 a1 ot)
          next e2 =>
            left
            constructor
            · simp [tr_bind_eq, Tr.bind, withContext, rpcGetAccount,
                rpcFetchPoolState, tryTr, liftE, h1, h2, h3, h4, sends]
            · intro s k
              simp [tr_bind_eq, Tr.bind, withContext, rpcGetAccount,
                rpcFetchPoolState, tryTr, liftE, h1, h2, h3, h4]
          next instrs =>
            cases h5 : env.getLatestBlockhash
            next e2 =>
              left
              constructor
              · simp [tr_bind_eq, Tr.bind, withContext, rpcGetAccount,
                  rpcFetchPoolState, rpcGetLatestBlockhash, tryTr, liftE,
                  h1, h2, h3, h4, h5, sends]
              · intro s k
                simp [tr_bind_eq, Tr.bind, withContext, rpcGetAccount,
                  rpcFetchPoolState, rpcGetLatestBlockhash, tryTr, liftE,
                  h1, h2, h3, h4, h5]
            next bh =>
              right
              cases h6 : env.sendAndConfirm
                  { instructions := instrs
                    payer := env.payer
                    signers := [env.payer]
                    blockhash := bh }
              next e2 =>
                constructor
                · simp [tr_bind_eq, Tr.bind, withContext, rpcGetAccount,
                    rpcFetchPoolState, rpcGetLatestBlockhash, rpcSend, tryTr,
                    liftE, h1, h2, h3, h4, h5, h6, sends]
                · refine ⟨{ instructions := instrs
                            payer := env.payer
                            signers := [env.payer]
                            blockhash := bh }, ?_, ?_, ?_⟩
                  · simp [tr_bind_eq, Tr.bind, withContext, rpcGetAccount,
                      rpcFetchPoolState, rpcGetLatestBlockhash, rpcSend, tryTr,
                      liftE, h1, h2, h3, h4, h5, h6]
                  · intro s k
                    simp [tr_bind_eq, Tr.bind, withContext, rpcGetAccount,
                      rpcFetchPoolState, rpcGetLatestBlockhash, rpcSend, tryTr,
                      liftE, h1, h2, h3, h4, h5, h6]
                  · intro k
                    simp [tr_bind_eq, Tr.bind, withContext, rpcGetAccount,
                      rpcFetchPoolState, rpcGetLatestBlockhash, rpcSend, tryTr,
                      liftE, h1, h2, h3, h4, h5, h6]
              next s0 =>
                constructor
                · simp [tr_bind_eq, Tr.bind, withContext, rpcGetAccount,
                    rpcFetchPoolState, rpcGetLatestBlockhash, rpcSend, tryTr,
                    liftE, Tr.pureT, h1, h2, h3, h4, h5, h6, sends]
                · refine ⟨{ instructions := instrs
                            payer := env.payer
                            signers := [env.payer]
                            blockhash := bh }, ?_, ?_, ?_⟩
                  · simp [tr_bind_eq, Tr.bind, withContext, rpcGetAccount,
                      rpcFetchPoolState, rpcGetLatestBlockhash, rpcSend, tryTr,
                      liftE, Tr.pureT, h1, h2, h3, h4, h5, h6]
                  · intro s k hres
                    rw [h6]
                    simp [tr_bind_eq, Tr.bind, withContext, rpcGetAccount,
                      rpcFetchPoolState, rpcGetLatestBlockhash, rpcSend, tryTr,
                      liftE, Tr.pureT, h1, h2, h3, h4, h5, h6] at hres
                    rw [hres.1]
                  · intro k
                    simp [tr_bind_eq, Tr.bind, withContext, rpcGetAccount,
                      rpcFetchPoolState, rpcGetLatestBlockhash, rpcSend, tryTr,
                      liftE, Tr.pureT, h1, h2, h3, h4, h5, h6]
        next pd =>
          left
          constructor
          · simp [tr_bind_eq, Tr.bind, withContext, rpcGetAccount,
              rpcFetchPoolState, tryTr, Tr.pureT, h1, h2, h3, sends]
          · intro s k
            simp [tr_bind_eq, Tr.bind, withContext, rpcGetAccount,
              rpcFetchPoolState, tryTr, Tr.pureT, h1, h2, h3]

/-! ## Claim theorems -/

theorem token_amounts_eq_amended (curve : CurveFn) (liq : PoolLiquidity)
    (lp : Nat) (dep : Bool) :
    token_amounts_from_liquidity curve liq lp dep =
      token_amounts_spec_amended curve liq lp dep := by
  unfold token_amounts_from_liquidity token_amounts_spec_amended
  cases h : curve lp liq.lp_supply liq.token_0_amount liq.token_1_amount
      RoundDirection.Ceiling
  · rfl
  case some r =>
    rcases r with ⟨r0, r1⟩
    by_cases hg : u64MAX < r0 ∨ u64MAX < r1
    · have hg2 : ¬ (r0 ≤ u64MAX ∧ r1 ≤ u64MAX) := by omega
      simp [hg, hg2]
    · have hg2 : r0 ≤ u64MAX ∧ r1 ≤ u64MAX := by omega
      simp [hg, hg2]

/-- Amended claim C1: for every call of `calculate_token_amounts`, the
token amounts are computed from the fresh liquidity snapshot by the
curve conversion with ceiling rounding for deposits and withdrawals
alike (not floor for withdrawals), and the maxima/minima are the
converted amounts multiplied by `1.0 + 0.01` (rounded up) respectively
`1.0 - 0.01` (rounded down) in binary64 arithmetic — an approximate,
not exact, 1% margin. -/
theorem c1_slippage_margin_amended (env : Env) (p : Pubkey) (lp : Nat) (dep : Bool) :
    calculate_token_amounts env p lp dep =
      Tr.bind (get_pool_liquidity env p)
        (fun liq => liftE (token_amounts_spec_amended env.curve liq lp dep)) := by
  unfold calculate_token_amounts
  have h : (fun liq => liftE (token_amounts_from_liquidity env.curve liq lp dep)) =
      (fun liq => liftE (token_amounts_spec_amended env.curve liq lp dep)) := by
    funext liq
    rw [token_amounts_eq_amended]
  exact congrArg (Tr.bind (get_pool_liquidity env p)) h

/-- Counterexample to claim C1 as stated.  Deposit case (`envC1dep`, in
which the curve converts the requested amount to `2 ^ 60` for both
tokens): the code computes the maximum `1164450719652915456`, but the
converted amount "increased by 1%" is `⌈2 ^ 60 * 101 / 100⌉ =
1164450719652915446` — ten less — because the code's margin is the
binary64 product with `1.01₆₄`, which is not exactly `1.01`.
Withdrawal case (`envC1wd`, a constant-product curve over the snapshot
`(10, 10, 3)` with requested LP amount 1): the code converts with
*ceiling* rounding (`⌈10/3⌉ = 4`, minimum `3`), while the claimed floor
conversion gives `⌊10/3⌋ = 3` and minimum `2`. -/
theorem c1_counterexample :
    (get_pool_liquidity envC1dep 11).result = .ok ⟨100, 100, 5⟩ ∧
    (calculate_token_amounts envC1dep 11 5 true).result =
      .ok (1164450719652915456, 1164450719652915456) ∧
    token_amounts_spec_claimC1 envC1dep.curve ⟨100, 100, 5⟩ 5 true =
      .ok (1164450719652915446, 1164450719652915446) ∧
    (get_pool_liquidity envC1wd 11).result = .ok ⟨10, 10, 3⟩ ∧
    (calculate_token_amounts envC1wd 11 1 false).result = .ok (3, 3) ∧
    token_amounts_spec_claimC1 envC1wd.curve ⟨10, 10, 3⟩ 1 false = .ok (2, 2) ∧
    ((1164450719652915456 : Nat) ≠ 1164450719652915446) ∧ ((3 : Nat) ≠ 2) := by
  exact ⟨by decide, by decide, by decide, by decide, by decide, by decide,
    by decide, by decide⟩

/-- Amended claim C5: with one exception, every fallible step of the
public operations propagates its failure immediately, under a short
descriptive cause, with no retry and no further remote effects, and a
failing operation aborts the whole run in `main`.  The exception, forced
by the counterexample, is the pool-existence probe of `initialize_pool`,
whose failure deliberately selects the pool-creation path.  The
conjuncts cover one representative failing step of each kind: a
checked-arithmetic failure of the curve, a pool-state decode failure, a
missing vault account, a blockhash fetch failure (after which no
transaction is submitted), a submission failure, a mint-owner lookup
failure, an AMM-config fetch failure, and the propagation of a failure
out of `main`. -/
theorem c5_fail_fast_amended (env : Env) :
    (∀ liq lp dep,
      env.curve lp liq.lp_supply liq.token_0_amount liq.token_1_amount
        RoundDirection.Ceiling = none →
      token_amounts_from_liquidity env.curve liq lp dep =
        .error ("failed to calculate amounts")) ∧
    (∀ p e, env.fetchPoolState p = .error e →
      get_pool_liquidity env p =
        ⟨[Event.fetchAccount p], .error ("failed to fetch pool state: " ++ e)⟩) ∧
    (∀ p pd, env.fetchPoolState p = .ok pd →
      env.getMultipleAccounts [pd.token_0_vault, pd.token_1_vault] = .ok [] →
      (get_pool_liquidity env p).result = .error ("failed to fetch vault accounts")) ∧
    (∀ ps pa lm t0m t1m v0 v1 o0 o1 ol lp td di e,
      create_deposit_instructions env ps pa lm t0m t1m v0 v1 o0 o1 ol lp =
        ⟨td, .ok di⟩ →
      env.getLatestBlockhash = .error e →
      add_liquidity env ps pa lm t0m t1m v0 v1 o0 o1 ol lp =
        ⟨td ++ [Event.getLatestBlockhash],
          .error ("failed to get recent blockhash: " ++ e)⟩) ∧
    (∀ ps pa lm t0m t1m v0 v1 o0 o1 ol lp td tw di wi bh e,
      create_deposit_instructions env ps pa lm t0m t1m v0 v1 o0 o1 ol lp =
        ⟨td, .ok di⟩ →
      create_withdrawal_instructions env ps pa lm t0m t1m v0 v1 o0 o1 ol lp =
        ⟨tw, .ok wi⟩ →
      env.getLatestBlockhash = .ok bh →
      env.sendAndConfirm ⟨di ++ wi, env.payer, [env.payer], bh⟩ = .error e →
      (add_and_remove_liquidity env ps pa lm t0m t1m v0 v1 o0 o1 ol lp).result =
        .error ("failed to send add_and_remove_liquidity transaction: " ++ e)) ∧
    (∀ cfg t0m t1m a0 a1 ot e, a0 ≠ 0 → a1 ≠ 0 →
      env.getAccount t0m = .error e →
      initialize_pool env cfg t0m t1m a0 a1 ot =
        ⟨[Event.getAccount t0m],
          .error ("failed to get token_0_mint owner: " ++ e)⟩) ∧
    (∀ idx e,
      env.fetchAmmConfig (deriveAmmConfig env.findProgramAddress env.programId idx) =
        .error e →
      get_amm_config_by_index env idx =
        ⟨[Event.fetchAccount (deriveAmmConfig env.findProgramAddress env.programId idx)],
          .error e⟩) ∧
    (∀ cfgs e, env.readKeypair = .ok () → env.allAmmConfigs = .ok cfgs →
      (get_amm_config_by_index env 0).result = .error e →
      (mainRun env).result = .error e) := by
  refine ⟨?_, ?_, ?_, ?_, ?_, ?_, ?_, ?_⟩
  · intro liq lp dep h
    unfold token_amounts_from_liquidity
    rw [h]
  · intro p e h
    unfold get_pool_liquidity
    simp [tr_bind_eq, Tr.bind, withContext, rpcFetchPoolState, h]
  · intro p pd hpd hv
    unfold get_pool_liquidity
    simp [tr_bind_eq, Tr.bind, withContext, rpcFetchPoolState,
      rpcGetMultipleAccounts, liftE, hpd, hv]
  · intro ps pa lm t0m t1m v0 v1 o0 o1 ol lp td di e hd hb
    rw [add_liquidity_eq_submitOne, hd]
    simp [submitOne, Tr.bind, withContext, rpcGetLatestBlockhash, hb]
  · intro ps pa lm t0m t1m v0 v1 o0 o1 ol lp td tw di wi bh e hd hw hb hs
    rw [add_and_remove_eq_submitOne, hd]
    simp [submitOne, Tr.bind, withContext, rpcGetLatestBlockhash, rpcSend,
      hw, hb, hs, Tr.pureT]
  · intro cfg t0m t1m a0 a1 ot e h0 h1 ha
    unfold initialize_pool
    rw [if_neg (by simp [h0, h1])]
    simp [tr_bind_eq, Tr.bind, withContext, rpcGetAccount, ha]
  · intro idx e h
    unfold get_amm_config_by_index
    simp [tr_bind_eq, Tr.bind, rpcFetchAmmConfig, h]
  · intro cfgs e hk ha hres
    rcases hc : get_amm_config_by_index env 0 with ⟨tc, rc⟩
    rw [hc] at hres
    simp only [Tr.result] at hres
    unfold mainRun list_amm_configs
    simp [tr_bind_eq, Tr.bind, liftE, Tr.pureT, rpcFetchProgramAccounts,
      hk, ha, hc, hres]

/-- Counterexample to claim C5 as stated: in `envProbeFail` the
pool-state fetch — a fallible step of `initialize_pool` — fails, the
step is performed (its effect is in the trace), and yet the operation
does not return an error: it continues, submits a transaction, and
succeeds. -/
theorem c5_counterexample :
    envProbeFail.fetchPoolState 9 = .error ("account not found") ∧
    Event.fetchAccount 9 ∈ (initialize_pool envProbeFail 50 51 52 10 10 0).trace ∧
    (initialize_pool envProbeFail 50 51 52 10 10 0).result.isOk = true ∧
    sends (initialize_pool envProbeFail 50 51 52 10 10 0).trace = 1 := by
  exact ⟨rfl, by decide, by decide, by decide⟩

/-- Claim C9: `order_tokens` is commutative, and the pair it returns is
sorted and is the input pair as a set. -/
theorem c9_order_tokens_sorting (a b : Pubkey) :
    order_tokens a b = order_tokens b a ∧
    (order_tokens a b).1 ≤ (order_tokens a b).2 ∧
    ((order_tokens a b).1 = a ∧ (order_tokens a b).2 = b ∨
      (order_tokens a b).1 = b ∧ (order_tokens a b).2 = a) := by
  unfold order_tokens
  rcases lt_trichotomy a b with h | h | h
  · have h2 : ¬ b < a := lt_asymm h
    simp [h, h2, le_of_lt h]
  · subst h
    simp
  · have h2 : ¬ a < b := lt_asymm h
    simp [h, h2, le_of_lt h]

/-- Claim C2: with a zero initial amount `initialize_pool` fails with
"initial amounts cannot be zero" before any remote effect (its trace is
empty); with both amounts positive the validation passes and the
operation proceeds to its first RPC call, fetching the token-0 mint. -/
theorem c2_zero_amount_validation (env : Env) (cfg t0m t1m : Pubkey) (a0 a1 ot : Nat) :
    ((a0 = 0 ∨ a1 = 0) →
      initialize_pool env cfg t0m t1m a0 a1 ot =
        ⟨[], .error ("initial amounts cannot be zero")⟩) ∧
    (a0 ≠ 0 → a1 ≠ 0 →
      (initialize_pool env cfg t0m t1m a0 a1 ot).trace.head? =
        some (Event.getAccount t0m)) := by
  constructor
  · intro h
    unfold initialize_pool
    rw [if_pos h]
    rfl
  · intro h0 h1
    unfold initialize_pool
    rw [if_neg (by simp [h0, h1])]
    cases h : env.getAccount t0m <;>
      simp [tr_bind_eq, Tr.bind, withContext, rpcGetAccount, h]

/-- Claim C3: every derived address is a pure function of the external
`find_program_address` function, the program id, and the explicit
inputs, so two runs (environments) that agree on those produce pairwise
identical pool-state, pool-authority, vault, LP-mint, observation and
AMM-config addresses; moreover the key returned by
`get_amm_config_by_index` is exactly the derived one. -/
theorem c3_deterministic_derivation (env1 env2 : Env)
    (hf : env1.findProgramAddress = env2.findProgramAddress)
    (hp : env1.programId = env2.programId)
    (cfg t0m t1m : Pubkey) (idx : Nat) :
    (derivePoolState env1.findProgramAddress env1.programId cfg t0m t1m =
      derivePoolState env2.findProgramAddress env2.programId cfg t0m t1m) ∧
    (deriveAuthority env1.findProgramAddress env1.programId =
      deriveAuthority env2.findProgramAddress env2.programId) ∧
    (deriveVault env1.findProgramAddress env1.programId
        (derivePoolState env1.findProgramAddress env1.programId cfg t0m t1m) t0m =
      deriveVault env2.findProgramAddress env2.programId
        (derivePoolState env2.findProgramAddress env2.programId cfg t0m t1m) t0m) ∧
    (deriveVault env1.findProgramAddress env1.programId
        (derivePoolState env1.findProgramAddress env1.programId cfg t0m t1m) t1m =
      deriveVault env2.findProgramAddress env2.programId
        (derivePoolState env2.findProgramAddress env2.programId cfg t0m t1m) t1m) ∧
    (deriveLpMint env1.findProgramAddress env1.programId
        (derivePoolState env1.findProgramAddress env1.programId cfg t0m t1m) =
      deriveLpMint env2.findProgramAddress env2.programId
        (derivePoolState env2.findProgramAddress env2.programId cfg t0m t1m)) ∧
    (deriveObservation env1.findProgramAddress env1.programId
        (derivePoolState env1.findProgramAddress env1.programId cfg t0m t1m) =
      deriveObservation env2.findProgramAddress env2.programId
        (derivePoolState env2.findProgramAddress env2.programId cfg t0m t1m)) ∧
    (deriveAmmConfig env1.findProgramAddress env1.programId idx =
      deriveAmmConfig env2.findProgramAddress env2.programId idx) ∧
    (∀ (r : Pubkey × AmmConfig) (t : List Event),
      get_amm_config_by_index env1 idx = ⟨t, .ok r⟩ →
      r.1 = deriveAmmConfig env1.findProgramAddress env1.programId idx) := by
  have link : ∀ (r : Pubkey × AmmConfig) (t : List Event),
      get_amm_config_by_index env1 idx = ⟨t, .ok r⟩ →
      r.1 = deriveAmmConfig env1.findProgramAddress env1.programId idx := by
    intro r t h
    unfold get_amm_config_by_index at h
    cases hc : env1.fetchAmmConfig
        (deriveAmmConfig env1.findProgramAddress env1.programId idx) <;>
      simp [tr_bind_eq, Tr.bind, rpcFetchAmmConfig, hc, Tr.pureT] at h
    rw [← h.2]
  rw [hf, hp]
  exact ⟨rfl, rfl, rfl, rfl, rfl, rfl, rfl, by rw [← hf, ← hp]; exact link⟩

/-- Claim C7: `calculate_token_amounts` is exactly a fresh
`get_pool_liquidity` query followed by a pure conversion of the returned
snapshot (so the computed amounts depend only on that query's response),
and every build of deposit or withdrawal instructions starts by
performing that query: its first remote effect is the pool-state fetch.
No liquidity value is carried in from anywhere else — the operations
have no state besides the environment. -/
theorem c7_fresh_liquidity_snapshot (env : Env)
    (ps pa lm t0m t1m v0 v1 o0 o1 ol : Pubkey) (lp : Nat) (dep : Bool) :
    calculate_token_amounts env ps lp dep =
      Tr.bind (get_pool_liquidity env ps)
        (fun liq => liftE (token_amounts_from_liquidity env.curve liq lp dep)) ∧
    (create_deposit_instructions env ps pa lm t0m t1m
        v0 v1 o0 o1 ol lp).trace.head? = some (Event.fetchAccount ps) ∧
    (create_withdrawal_instructions env ps pa lm t0m t1m
        v0 v1 o0 o1 ol lp).trace.head? = some (Event.fetchAccount ps) := by
  refine ⟨rfl, ?_, ?_⟩
  · unfold create_deposit_instructions
    exact tr_bind_trace_head _ _ _ (calculate_token_amounts_trace_head env ps lp true)
  · unfold create_withdrawal_instructions
    exact tr_bind_trace_head _ _ _ (calculate_token_amounts_trace_head env ps lp false)

/-- Claim C4: whenever its two instruction builders succeed,
`add_and_remove_liquidity` submits exactly one transaction whose
instruction list is the deposit instructions followed by the withdrawal
instructions for the same arguments, and returns the node's response to
that single submission. -/
theorem c4_single_atomic_transaction (env : Env)
    (ps pa lm t0m t1m v0 v1 o0 o1 ol : Pubkey) (lp : Nat)
    (td tw : List Event) (di wi : List Instruction) (bh : Blockhash)
    (h1 : create_deposit_instructions env ps pa lm t0m t1m v0 v1 o0 o1 ol lp =
      ⟨td, .ok di⟩)
    (h2 : create_withdrawal_instructions env ps pa lm t0m t1m v0 v1 o0 o1 ol lp =
      ⟨tw, .ok wi⟩)
    (hb : env.getLatestBlockhash = .ok bh) :
    (add_and_remove_liquidity env ps pa lm t0m t1m v0 v1 o0 o1 ol lp).trace =
      td ++ tw ++ [Event.getLatestBlockhash,
        Event.sendTransaction ⟨di ++ wi, env.payer, [env.payer], bh⟩] ∧
    (add_and_remove_liquidity env ps pa lm t0m t1m v0 v1 o0 o1 ol lp).result =
      Except.mapError
        (fun e => "failed to send add_and_remove_liquidity transaction: " ++ e)
        (env.sendAndConfirm ⟨di ++ wi, env.payer, [env.payer], bh⟩) := by
  unfold add_and_remove_liquidity
  cases hs : env.sendAndConfirm ⟨di ++ wi, env.payer, [env.payer], bh⟩ <;>
    simp [tr_bind_eq, h1, h2, Tr.bind, withContext, rpcGetLatestBlockhash,
      rpcSend, hb, hs, Except.mapError]

/-- Claim C8: if both mint-owner lookups succeed and the pool-state
account at the derived pool address decodes, `initialize_pool` returns
`none` in place of a signature together with the vault and LP-mint keys
taken from the fetched pool state and the locally derived pool-state and
authority addresses, and its trace contains no transaction submission:
the remote ledger is left unchanged. -/
theorem c8_existing_pool_frame (env : Env) (cfg t0m t1m : Pubkey) (a0 a1 ot : Nat)
    (acc0 acc1 : AccountInfo) (pd : PoolState)
    (h0 : a0 ≠ 0) (h1 : a1 ≠ 0)
    (ha0 : env.getAccount t0m = .ok acc0) (ha1 : env.getAccount t1m = .ok acc1)
    (hp : env.fetchPoolState
      (derivePoolState env.findProgramAddress env.programId cfg t0m t1m) = .ok pd) :
    initialize_pool env cfg t0m t1m a0 a1 ot =
      ⟨[Event.getAccount t0m, Event.getAccount t1m,
        Event.fetchAccount
          (derivePoolState env.findProgramAddress env.programId cfg t0m t1m)],
       .ok (none,
        { token_0_vault := pd.token_0_vault
          token_1_vault := pd.token_1_vault
          pool_state := derivePoolState env.findProgramAddress env.programId cfg t0m t1m
          pool_authority := deriveAuthority env.findProgramAddress env.programId
          lp_mint := pd.lp_mint
          creator_token_0 := env.getAta env.payer t0m acc0.owner
          creator_token_1 := env.getAta env.payer t1m acc1.owner
          creator_lp_ata := env.getAta env.payer pd.lp_mint spl_token_id })⟩ := by
  unfold initialize_pool
  rw [if_neg (by simp [h0, h1])]
  simp [tr_bind_eq, Tr.bind, withContext, rpcGetAccount, rpcFetchPoolState, tryTr,
    ha0, ha1, hp, getAssociatedTokenAddress, Tr.pureT]

/-- Claim C6: each of `add_liquidity`, `remove_liquidity` and
`add_and_remove_liquidity` submits at most one transaction, and exactly
one when it succeeds, returning precisely the node's confirmation
signature for that submission; `initialize_pool` likewise submits at
most one transaction, exactly one when it returns a signature (the
new-pool path) and none when it returns `none` (the existing-pool
path). -/
theorem c6_exactly_one_submission (env : Env)
    (ps pa lm t0m t1m v0 v1 o0 o1 ol cfg : Pubkey) (lp a0 a1 ot : Nat) :
    (sends (add_liquidity env ps pa lm t0m t1m v0 v1 o0 o1 ol lp).trace ≤ 1 ∧
      ∀ s, (add_liquidity env ps pa lm t0m t1m v0 v1 o0 o1 ol lp).result = .ok s →
        sends (add_liquidity env ps pa lm t0m t1m v0 v1 o0 o1 ol lp).trace = 1 ∧
        ∃ tx, Event.sendTransaction tx ∈
            (add_liquidity env ps pa lm t0m t1m v0 v1 o0 o1 ol lp).trace ∧
          env.sendAndConfirm tx = .ok s) ∧
    (sends (remove_liquidity env ps pa lm t0m t1m v0 v1 o0 o1 ol lp).trace ≤ 1 ∧
      ∀ s, (remove_liquidity env ps pa lm t0m t1m v0 v1 o0 o1 ol lp).result = .ok s →
        sends (remove_liquidity env ps pa lm t0m t1m v0 v1 o0 o1 ol lp).trace = 1 ∧
        ∃ tx, Event.sendTransaction tx ∈
            (remove_liquidity env ps pa lm t0m t1m v0 v1 o0 o1 ol lp).trace ∧
          env.sendAndConfirm tx = .ok s) ∧
    (sends (add_and_remove_liquidity env ps pa lm t0m t1m v0 v1 o0 o1 ol lp).trace ≤ 1 ∧
      ∀ s, (add_and_remove_liquidity env ps pa lm t0m t1m
          v0 v1 o0 o1 ol lp).result = .ok s →
        sends (add_and_remove_liquidity env ps pa lm t0m t1m v0 v1 o0 o1 ol lp).trace = 1 ∧
        ∃ tx, Event.sendTransaction tx ∈
            (add_and_remove_liquidity env ps pa lm t0m t1m v0 v1 o0 o1 ol lp).trace ∧
          env.sendAndConfirm tx = .ok s) ∧
    (sends (initialize_pool env cfg t0m t1m a0 a1 ot).trace ≤ 1 ∧
      (∀ s k, (initialize_pool env cfg t0m t1m a0 a1 ot).result = .ok (some s, k) →
        sends (initialize_pool env cfg t0m t1m a0 a1 ot).trace = 1 ∧
        ∃ tx, Event.sendTransaction tx ∈ (initialize_pool env cfg t0m t1m a0 a1 ot).trace ∧
          env.sendAndConfirm tx = .ok s) ∧
      (∀ k, (initialize_pool env cfg t0m t1m a0 a1 ot).result = .ok (none, k) →
        sends (initialize_pool env cfg t0m t1m a0 a1 ot).trace = 0)) := by
  refine ⟨?_, ?_, ?_, ?_⟩
  · rw [add_liquidity_eq_submitOne]
    exact submitOne_sends env _ _ (sends_create_deposit env ps pa lm t0m t1m v0 v1 o0 o1 ol lp)
  · rw [remove_liquidity_eq_submitOne]
    exact submitOne_sends env _ _ (sends_create_withdrawal env ps pa lm t0m t1m v0 v1 o0 o1 ol lp)
  · rw [add_and_remove_eq_submitOne]
    apply submitOne_sends
    rw [sends_bind, sends_create_deposit]
    cases h : (create_deposit_instructions env ps pa lm t0m t1m v0 v1 o0 o1 ol lp).result
    · simp [h]
    · simp only [h, Nat.zero_add]
      rw [sends_bind, sends_create_withdrawal]
      cases h2 : (create_withdrawal_instructions env ps pa lm t0m t1m
          v0 v1 o0 o1 ol lp).result <;>
        simp [h2, Tr.pureT, sends]
  · rcases initialize_pool_shape env cfg t0m t1m a0 a1 ot with
      ⟨hs, hnone⟩ | ⟨hs, tx, hmem, hok, hnone⟩
    · exact ⟨by rw [hs]; decide,
        fun s k h => absurd h (hnone s k),
        fun k h => hs⟩
    · exact ⟨by rw [hs],
        fun s k h => ⟨hs, tx, hmem, hok s k h⟩,
        fun k h => absurd h (hnone k)⟩

/-- Claim C10: if the curve result exceeds `u64::MAX` in either
component, `calculate_token_amounts` fails with "token amount too large
for u64" before any narrowing cast; otherwise both `as u64` casts
(truncation modulo `2 ^ 64`) are value-preserving. -/
theorem c10_no_truncating_cast (curve : CurveFn) (liq : PoolLiquidity)
    (lp : Nat) (dep : Bool) (r0 r1 : Nat)
    (h : curve lp liq.lp_supply liq.token_0_amount liq.token_1_amount
      RoundDirection.Ceiling = some (r0, r1)) :
    ((u64MAX < r0 ∨ u64MAX < r1) →
      token_amounts_from_liquidity curve liq lp dep =
        .error ("token amount too large for u64")) ∧
    (r0 ≤ u64MAX → r1 ≤ u64MAX → r0 % 2 ^ 64 = r0 ∧ r1 % 2 ^ 64 = r1) := by
  constructor
  · intro hbig
    unfold token_amounts_from_liquidity
    rw [h]
    simp [hbig]
  · intro h0 h1
    have b0 : r0 < 2 ^ 64 := by
      have : u64MAX = 2 ^ 64 - 1 := rfl
      omega
    have b1 : r1 < 2 ^ 64 := by
      have : u64MAX = 2 ^ 64 - 1 := rfl
      omega
    exact ⟨Nat.mod_eq_of_lt b0, Nat.mod_eq_of_lt b1⟩

/-! ## Witnesses -/

theorem c2_witness :
    initialize_pool envW 50 51 52 0 10 0 =
      ⟨[], .error ("initial amounts cannot be zero")⟩ ∧
    (initialize_pool envW 50 51 52 10 10 0).trace.head? =
      some (Event.getAccount 51) := by
  exact ⟨(c2_zero_amount_validation envW 50 51 52 0 10 0).1 (Or.inl rfl),
    (c2_zero_amount_validation envW 50 51 52 10 10 0).2 (by decide) (by decide)⟩

theorem c3_witness :
    derivePoolState envW.findProgramAddress envW.programId 50 51 52 =
      derivePoolState envW.findProgramAddress envW.programId 50 51 52 ∧
    ((9 : Pubkey),
      ({ index := 0, trade_fee_rate := 10, protocol_fee_rate := 20 } : AmmConfig)).1 =
      deriveAmmConfig envW.findProgramAddress envW.programId 0 := by
  refine ⟨(c3_deterministic_derivation envW envW rfl rfl 50 51 52 0).1, ?_⟩
  exact (c3_deterministic_derivation envW envW rfl rfl 50 51 52 0).2.2.2.2.2.2.2
    (9, { index := 0, trade_fee_rate := 10, protocol_fee_rate := 20 })
    [Event.fetchAccount 9] (by decide)

theorem c4_witness :
    (add_and_remove_liquidity envW 11 12 13 14 15 16 17 18 19 20 5).trace =
      tdW ++ tdW ++ [Event.getLatestBlockhash,
        Event.sendTransaction ⟨diW ++ wiW, envW.payer, [envW.payer], 77⟩] ∧
    (add_and_remove_liquidity envW 11 12 13 14 15 16 17 18 19 20 5).result =
      Except.mapError
        (fun e => "failed to send add_and_remove_liquidity transaction: " ++ e)
        (envW.sendAndConfirm ⟨diW ++ wiW, envW.payer, [envW.payer], 77⟩) := by
  exact c4_single_atomic_transaction envW 11 12 13 14 15 16 17 18 19 20 5
    tdW tdW diW wiW 77 (by decide) (by decide) rfl

theorem c5_witness :
    add_liquidity envBhFail 11 12 13 14 15 16 17 18 19 20 5 =
      ⟨tdW ++ [Event.getLatestBlockhash],
        .error ("failed to get recent blockhash: connection refused")⟩ ∧
    (mainRun envCfgFail).result = .error ("AccountNotFound") := by
  constructor
  · exact (c5_fail_fast_amended envBhFail).2.2.2.1 11 12 13 14 15 16 17 18 19 20 5
      tdW diW ("connection refused") (by decide) rfl
  · exact (c5_fail_fast_amended envCfgFail).2.2.2.2.2.2.2 [] ("AccountNotFound")
      rfl rfl (by decide)

theorem c6_witness :
    (sends (add_liquidity envW 11 12 13 14 15 16 17 18 19 20 5).trace = 1 ∧
      ∃ tx, Event.sendTransaction tx ∈
          (add_liquidity envW 11 12 13 14 15 16 17 18 19 20 5).trace ∧
        envW.sendAndConfirm tx = .ok 99) ∧
    sends (initialize_pool envProbeFail 50 51 52 10 10 0).trace = 1 ∧
    sends (initialize_pool envW 50 51 52 10 10 0).trace = 0 := by
  refine ⟨?_, ?_, ?_⟩
  · exact (c6_exactly_one_submission envW
      11 12 13 14 15 16 17 18 19 20 50 5 10 10 0).1.2 99 (by decide)
  · exact ((c6_exactly_one_submission envProbeFail
      11 12 13 51 52 16 17 18 19 20 50 5 10 10 0).2.2.2.2.1 99
      ⟨9, 9, 9, 9, 9, 3, 3, 3⟩ (by decide)).1
  · exact (c6_exactly_one_submission envW
      11 12 13 51 52 16 17 18 19 20 50 5 10 10 0).2.2.2.2.2
      ⟨21, 22, 9, 9, 23, 3, 3, 3⟩ (by decide)

theorem c8_witness :
    initialize_pool envW 50 51 52 10 10 0 =
      ⟨[Event.getAccount 51, Event.getAccount 52, Event.fetchAccount 9],
        .ok (none, ⟨21, 22, 9, 9, 23, 3, 3, 3⟩)⟩ := by
  exact c8_existing_pool_frame envW 50 51 52 10 10 0
    { owner := 5, data := [] } { owner := 5, data := [] } poolStateW
    (by decide) (by decide) rfl rfl rfl

theorem c10_witness :
    token_amounts_from_liquidity (fun _ _ _ _ _ => some (2 ^ 70, 1)) ⟨1, 1, 1⟩ 1 true =
      .error ("token amount too large for u64") ∧
    ((7 : Nat) % 2 ^ 64 = 7 ∧ (8 : Nat) % 2 ^ 64 = 8) := by
  constructor
  · exact (c10_no_truncating_cast (fun _ _ _ _ _ => some (2 ^ 70, 1)) ⟨1, 1, 1⟩
      1 true (2 ^ 70) 1 rfl).1 (Or.inl (by decide))
  · exact (c10_no_truncating_cast envW.curve ⟨100, 100, 5⟩ 5 true 7 8 rfl).2
      (by decide) (by decide)

end Raydium
